import Mathlib

/-!
Verification of the riak execution module (src/modules/riak.py) of
jbadigital/salt-contrib.

The module is a thin command-execution and text-parsing shim over the
`riak` / `riak-admin` command line tools.  Every operation builds a fixed
command string, hands it to an external executor, splits the captured
standard output into lines, strips known noise lines, and interprets the
remaining lines by string prefix / content match.

Python strings are modelled as lists of characters (`Str`); the Python
string methods used by the module (`split` on a separator, `split()` on
whitespace, `splitlines`, `startswith`, `strip`, `in`) are given
character-exact structural models below.  The external command-execution
capability (`__salt__['cmd.run']`) is modelled as a function
`run : Str → Str` from the command string to the captured output, and each
operation additionally reports the list of command strings it handed to the
executor, so that "no command is ever run" is a provable statement.

A Python runtime error (IndexError from `msgs[0]` on an empty list,
ValueError from unpacking `key, val = item.split(':')`) is modelled as
`Option.none` in the operation's result.
-/

namespace Riak

/-- Python strings, modelled as lists of characters. -/
abbrev Str := List Char

/-- Python `s.split(sep)` for a one-character separator `sep`:
`"a@b".split("@") == ["a", "b"]`, `"".split("@") == [""]`.  The result is
always non-empty and never contains the separator. -/
def splitChar (sep : Char) : Str → List Str
  | [] => [[]]
  | c :: rest =>
    if c = sep then [] :: splitChar sep rest
    else
      match splitChar sep rest with
      | r :: rs => (c :: r) :: rs
      | [] => [[c]]

/-- Python `line.split(" : ")`: split on the three-character separator
`" : "`, scanning left to right, non-overlapping occurrences. -/
def splitColonSep : Str → List Str
  | ' ' :: ':' :: ' ' :: rest => [] :: splitColonSep rest
  | c :: rest =>
    match splitColonSep rest with
    | r :: rs => (c :: r) :: rs
    | [] => [[c]]
  | [] => [[]]

/-- The whitespace characters of Python's `str.split()` / `str.strip()`
(the ASCII ones; the module only ever meets ASCII tool output). -/
def pyIsSpace (c : Char) : Bool :=
  c = ' ' || c = '\t' || c = '\n' || c = '\r' || c = '\x0b' || c = '\x0c'

/-- Split at every character satisfying `p`, keeping empty pieces. -/
def splitIf (p : Char → Bool) : Str → List Str
  | [] => [[]]
  | c :: rest =>
    if p c then [] :: splitIf p rest
    else
      match splitIf p rest with
      | r :: rs => (c :: r) :: rs
      | [] => [[c]]

/-- Python `line.split()` with no argument: split on runs of whitespace and
drop the empty pieces. -/
def pySplitWs (s : Str) : List Str :=
  (splitIf pyIsSpace s).filter (fun t => !t.isEmpty)

/-- Drop leading Python whitespace. -/
def dropWsLeft : Str → Str
  | [] => []
  | c :: rest => if pyIsSpace c then dropWsLeft rest else c :: rest

/-- Python `s.strip()`: drop leading and trailing whitespace. -/
def pyStrip (s : Str) : Str :=
  (dropWsLeft (dropWsLeft s).reverse).reverse

/-- Python `s.splitlines()` for newline-terminated text: like
`split("\n")` but without the trailing empty piece
(`"a\n".splitlines() == ["a"]`, `"".splitlines() == []`). -/
def pySplitlines (s : Str) : List Str :=
  let l := splitChar '\n' s
  if l.getLast? = some ([] : Str) then l.dropLast else l

/-- The polymorphic return values of the module's operations: a boolean, a
verbatim output line (string), Python `None`, or a list of output lines. -/
inductive Res where
  | boolean : Bool → Res
  | text : Str → Res
  | nothing : Res
  | items : List Str → Res
deriving DecidableEq

/-- The shared output normalization used by `version` and the `cluster_*`
operations (riak.py lines 28-31 and their copies):

    out = __salt__['cmd.run'](cmd).split('\n')
    msgs = [line for line in out if not line.startswith("!!!!")]
    if len(msgs) > 0 and msgs[0].startswith("Attempting"):
        del(msgs[0])
-/
def normalize (raw : Str) : List Str :=
  match (splitChar '\n' raw).filter (fun line => !List.isPrefixOf ( "!!!!".data) line) with
  | m :: rest => if List.isPrefixOf ( "Attempting".data) m then rest else m :: rest
  | [] => []

/-- The shared interpretation of `cluster_join` / `cluster_leave` /
`cluster_replace` (riak.py lines 116-119 and their copies):

    if msgs[0].startswith("Success"):
        return True
    else:
        return msgs[0]

`msgs[0]` on an empty list raises IndexError, modelled as `none`. -/
def successOrFirst (msgs : List Str) : Option Res :=
  match msgs.head? with
  | some m =>
    if List.isPrefixOf ( "Success".data) m then some (Res.boolean true)
    else some (Res.text m)
  | none => none

/-- riak.py `version` (lines 17-32): run `riak version`, normalize, return
the first normalized line. -/
def version (run : Str → Str) : Option Str :=
  (normalize (run ( "riak version".data))).head?

/-- riak.py `cluster_join` (lines 95-119).  The first component is the list
of commands handed to the executor. -/
def cluster_join (run : Str → Str) (node : Str) : List Str × Option Res :=
  if (splitChar '@' node).length ≠ 2 then ([], some (Res.boolean false))
  else
    let cmd := "riak-admin cluster join ".data ++ node
    ([cmd], successOrFirst (normalize (run cmd)))

/-- The body of riak.py `cluster_leave` after its validation (lines
137-148): pick `leave` or `force-remove`, append the node when given. -/
def cluster_leave_run (run : Str → Str) (node : Option Str) (force : Bool) :
    List Str × Option Res :=
  let base := if force = false then "riak-admin cluster leave".data
              else "riak-admin cluster force-remove".data
  let cmd := match node with
    | some n => base ++ " ".data ++ n
    | none => base
  ([cmd], successOrFirst (normalize (run cmd)))

/-- riak.py `cluster_leave` (lines 122-148): reject a given node that does
not split on `"@"` into exactly 2 parts, else run the command. -/
def cluster_leave (run : Str → Str) (node : Option Str) (force : Bool) :
    List Str × Option Res :=
  match node with
  | some n =>
    if (splitChar '@' n).length ≠ 2 then ([], some (Res.boolean false))
    else cluster_leave_run run node force
  | none => cluster_leave_run run node force

/-- riak.py `cluster_replace` (lines 151-190).  The validation is
`len(node1.split("@")) != 2 and len(node2.split("@")) != 2` — a logical
AND, so only inputs where BOTH nodes are malformed are rejected.  The
`force` argument is accepted but never used by the source. -/
def cluster_replace (run : Str → Str) (node1 node2 : Str) (force : Bool) :
    List Str × Option Res :=
  if (splitChar '@' node1).length ≠ 2 ∧ (splitChar '@' node2).length ≠ 2 then
    ([], some (Res.boolean false))
  else
    let cmd := "riak-admin cluster replace ".data ++ node1 ++ " ".data ++ node2
    ([cmd], successOrFirst (normalize (run cmd)))

/-- riak.py `cluster_plan` (lines 193-213): `None` when the first
normalized line is exactly `"There are no staged changes"`, else the full
normalized line list. -/
def cluster_plan (run : Str → Str) : List Str × Option Res :=
  let cmd := "riak-admin cluster plan".data
  let msgs := normalize (run cmd)
  ([cmd],
    match msgs.head? with
    | some m =>
      if m = "There are no staged changes".data then some Res.nothing
      else some (Res.items msgs)
    | none => none)

/-- riak.py `cluster_clear` (lines 216-233): `True` when the first
normalized line is exactly `"Cleared staged cluster changes"`, else that
line verbatim. -/
def cluster_clear (run : Str → Str) : List Str × Option Res :=
  let cmd := "riak-admin cluster clear".data
  let msgs := normalize (run cmd)
  ([cmd],
    match msgs.head? with
    | some m =>
      if m = "Cleared staged cluster changes".data then some (Res.boolean true)
      else some (Res.text m)
    | none => none)

/-- riak.py `cluster_commit` (lines 236-255): when the first normalized
line starts with `"You must verify the plan"`, re-invoke `cluster_plan`
(which runs a second command) and return its result; else that line
verbatim. -/
def cluster_commit (run : Str → Str) : List Str × Option Res :=
  let cmd := "riak-admin cluster commit".data
  let msgs := normalize (run cmd)
  match msgs.head? with
  | some m =>
    if List.isPrefixOf ( "You must verify the plan".data) m then
      let p := cluster_plan run
      (cmd :: p.1, p.2)
    else ([cmd], some (Res.text m))
  | none => ([cmd], none)

/-- riak.py `status` (lines 375-390): for each raw output line, split on
`" : "`; when that gives exactly 2 parts, append the single-entry mapping
`{parts[0]: parts[1]}` to the result list. -/
def status (run : Str → Str) : List (Str × Str) :=
  (splitChar '\n' (run ( "riak-admin status".data))).foldl
    (fun ret line =>
      match splitColonSep line with
      | [k, v] => ret ++ [(k, v)]
      | _ => ret) []

/-- The single-line view of `status`'s loop body: the mapping a line
contributes, if any (exactly when its `" : "`-split has exactly 2 parts). -/
def statusItem (line : Str) : Option (Str × Str) :=
  match splitColonSep line with
  | [k, v] => some (k, v)
  | _ => none

/-- A value of the `member_status` summary mapping: the initial entries are
the Python integer `0`, the parsed entries are strings. -/
inductive SummVal where
  | int : Int → SummVal
  | text : Str → SummVal
deriving DecidableEq

/-- The return value of `member_status`:
`{'membership': {...}, 'summary': {...}}`.  Python dicts are modelled as
insertion-ordered association lists. -/
structure MemberStats where
  membership : List (Str × (Str × Str × Str))
  summary : List (Str × SummVal)
deriving DecidableEq

/-- Python dict assignment `d[k] = v`: replace the value in place when the
key exists, else append the new entry. -/
def dictSet {α : Type} (d : List (Str × α)) (k : Str) (v : α) : List (Str × α) :=
  if d.any (fun p => p.1 == k) then
    d.map (fun p => if p.1 == k then (k, v) else p)
  else d ++ [(k, v)]

/-- One `"/"`-segment of `member_status`'s summary line (riak.py lines
323-325): `key, val = item.split(':')` (a ValueError — modelled as `none` —
unless the split has exactly 2 parts), then
`ret['summary'][key.strip()] = val.strip()`. -/
def setSummaryItem (summary : List (Str × SummVal)) (item : Str) :
    Option (List (Str × SummVal)) :=
  match splitChar ':' item with
  | [key, val] => some (dictSet summary (pyStrip key) (SummVal.text (pyStrip val)))
  | _ => none

/-- The body of `member_status`'s line loop (riak.py lines 317-332): skip
lines starting with `"="`, `"-"` or `"Status"`; a line containing `"/"`
updates the summary segment by segment; a line that whitespace-splits into
exactly 4 tokens updates the membership (token 3 is the node key). -/
def memberLine (ret : MemberStats) (line : Str) : Option MemberStats :=
  if List.isPrefixOf ( "=".data) line || List.isPrefixOf ( "-".data) line
      || List.isPrefixOf ( "Status".data) line then
    some ret
  else
    let afterSummary : Option MemberStats :=
      if line.contains '/' then
        match (splitChar '/' line).foldlM setSummaryItem ret.summary with
        | some s => some { ret with summary := s }
        | none => none
      else some ret
    match afterSummary with
    | none => none
    | some r =>
      match pySplitWs line with
      | [v0, v1, v2, v3] =>
        some { r with membership := dictSet r.membership v3 (v0, v1, v2) }
      | _ => some r

/-- The initial `ret` of `member_status` (riak.py lines 302-309). -/
def memberInit : MemberStats :=
  { membership := []
    summary := [( "Valid".data, SummVal.int 0), ( "Leaving".data, SummVal.int 0),
                ( "Exiting".data, SummVal.int 0), ( "Joining".data, SummVal.int 0),
                ( "Down".data, SummVal.int 0)] }

/-- riak.py `member_status` (lines 293-333): run `riak-admin
member-status`, split the output with `splitlines()` and fold the line
loop over it.  `none` models the ValueError raised while unpacking a
summary segment that does not split on `":"` into exactly 2 parts. -/
def member_status (run : Str → Str) : Option MemberStats :=
  (pySplitlines (run ( "riak-admin member-status".data))).foldlM memberLine memberInit

/-- A `member_status` output line that makes the source raise: it is not
skipped, it contains `"/"`, and some of its `"/"`-segments does not split
on `":"` into exactly 2 parts. -/
def badSummaryLine (line : Str) : Prop :=
  (List.isPrefixOf ( "=".data) line || List.isPrefixOf ( "-".data) line
    || List.isPrefixOf ( "Status".data) line) = false
  ∧ line.contains '/' = true
  ∧ ∃ seg ∈ splitChar '/' line, (splitChar ':' seg).length ≠ 2

instance (line : Str) : Decidable (badSummaryLine line) := by
  unfold badSummaryLine
  infer_instance

/-- The example `riak-admin member-status` output of spec §8. -/
def exampleMemberOut : Str :=
  ( "================================= Membership ==================\n"
  ++ "Status     Ring    Pending    Node\n"
  ++ "-------------------------------------------------------------\n"
  ++ "valid      25.0%     --      'riak@127.0.0.1'\n"
  ++ "-------------------------------------------------------------\n"
  ++ "Valid:1 / Leaving:0 / Exiting:0 / Joining:0 / Down:0").data

/-- A stub executor: the commit command answers "You must verify the plan
first", the re-invoked plan command answers "There are no staged
changes". -/
def commitStub : Str → Str := fun c =>
  if c = "riak-admin cluster commit".data then "You must verify the plan first".data
  else "There are no staged changes".data

/-- `status`'s append-accumulating loop is `filterMap statusItem`. -/
theorem status_foldl_filterMap (l : List Str) (acc : List (Str × Str)) :
    l.foldl (fun ret line =>
      match splitColonSep line with
      | [k, v] => ret ++ [(k, v)]
      | _ => ret) acc = acc ++ l.filterMap statusItem := by
  induction l generalizing acc with
  | nil => simp
  | cons x xs ih =>
    rw [List.foldl_cons, List.filterMap_cons, ih]
    have hstep : (match splitColonSep x with
        | [k, v] => acc ++ [(k, v)]
        | _ => acc) = acc ++ (statusItem x).toList := by
      unfold statusItem
      rcases splitColonSep x with _ | ⟨a, _ | ⟨b, _ | ⟨c, t⟩⟩⟩ <;> simp
    rw [hstep]
    cases hx : statusItem x <;> simp [hx]

/-- A summary segment whose `":"`-split does not have exactly 2 parts makes
the key/value unpacking raise, whatever the summary so far. -/
theorem setSummaryItem_none (s : List (Str × SummVal)) (seg : Str)
    (h : (splitChar ':' seg).length ≠ 2) : setSummaryItem s seg = none := by
  unfold setSummaryItem
  rcases hsp : splitChar ':' seg with _ | ⟨a, _ | ⟨b, _ | ⟨c, t⟩⟩⟩
  · rfl
  · rfl
  · exact absurd (by rw [hsp]; rfl) h
  · rfl

/-- Folding the summary-segment update over segments of which one is bad
raises, whatever the summary so far. -/
theorem foldlM_setSummaryItem_none (segs : List Str) (s : List (Str × SummVal))
    (h : ∃ seg ∈ segs, (splitChar ':' seg).length ≠ 2) :
    segs.foldlM setSummaryItem s = none := by
  induction segs generalizing s with
  | nil => simp at h
  | cons x xs ih =>
    rw [List.foldlM_cons]
    rcases h with ⟨seg, hmem, hbad⟩
    rcases List.mem_cons.mp hmem with rfl | hmem2
    · rw [setSummaryItem_none s seg hbad]
      rfl
    · cases hx : setSummaryItem s x with
      | none => rfl
      | some s2 => simpa using ih s2 ⟨seg, hmem2, hbad⟩

/-- A bad summary line makes the line loop raise, whatever the state. -/
theorem memberLine_none (ret : MemberStats) (line : Str)
    (h : badSummaryLine line) : memberLine ret line = none := by
  obtain ⟨hskip, hsl, hbad⟩ := h
  have hmem : '/' ∈ line := by simpa using hsl
  simp [memberLine, hskip, hsl, hmem,
    foldlM_setSummaryItem_none (splitChar '/' line) ret.summary hbad]

/-- Folding the line loop over lines of which one is a bad summary line
raises, whatever the state. -/
theorem foldlM_memberLine_none (lines : List Str) (st : MemberStats)
    (h : ∃ line ∈ lines, badSummaryLine line) :
    lines.foldlM memberLine st = none := by
  induction lines generalizing st with
  | nil => simp at h
  | cons x xs ih =>
    rw [List.foldlM_cons]
    rcases h with ⟨line, hmem, hbad⟩
    rcases List.mem_cons.mp hmem with rfl | hmem2
    · rw [memberLine_none st line hbad]
      rfl
    · cases hx : memberLine st x with
      | none => rfl
      | some st2 => simpa using ih st2 ⟨line, hmem2, hbad⟩

/-- C1: `cluster_replace` returns False immediately, building and running
no command, only when BOTH nodes fail the `"@"` split check; whenever at
least one node is well-formed (in particular when exactly one is
malformed), validation passes and the
`riak-admin cluster replace <node1> <node2>` command is still constructed
and handed to the executor. -/
theorem cluster_replace_validation (run : Str → Str) (node1 node2 : Str) (force : Bool) :
    (((splitChar '@' node1).length ≠ 2 ∧ (splitChar '@' node2).length ≠ 2) →
      cluster_replace run node1 node2 force = ([], some (Res.boolean false)))
    ∧ (((splitChar '@' node1).length = 2 ∨ (splitChar '@' node2).length = 2) →
      (cluster_replace run node1 node2 force).1
        = [ "riak-admin cluster replace ".data ++ node1 ++ " ".data ++ node2]) := by
  constructor
  · intro h
    simp [cluster_replace, h]
  · intro h
    have hn : ¬((splitChar '@' node1).length ≠ 2 ∧ (splitChar '@' node2).length ≠ 2) := by
      rcases h with h | h <;> simp [h]
    simp [cluster_replace, hn]

theorem cluster_replace_validation_w :
    cluster_replace (fun _ => "x".data) ( "bad".data) ( "alsobad".data) false
      = ([], some (Res.boolean false))
    ∧ (cluster_replace (fun _ => "x".data) ( "bad".data) ( "a@b".data) false).1
      = [ "riak-admin cluster replace ".data ++ "bad".data ++ " ".data ++ "a@b".data] :=
  ⟨(cluster_replace_validation (fun _ => "x".data) ( "bad".data) ( "alsobad".data) false).1
      (by decide),
   (cluster_replace_validation (fun _ => "x".data) ( "bad".data) ( "a@b".data) false).2
      (Or.inr (by decide))⟩

/-- C3: for every node string that does not split on `"@"` into exactly 2
parts, `cluster_join` returns False immediately and no command is built or
handed to the executor. -/
theorem cluster_join_rejects_malformed (run : Str → Str) (node : Str)
    (h : (splitChar '@' node).length ≠ 2) :
    cluster_join run node = ([], some (Res.boolean false)) := by
  simp [cluster_join, h]

theorem cluster_join_rejects_malformed_w :
    cluster_join (fun _ => "Success: joined".data) ( "badnode".data)
      = ([], some (Res.boolean false)) :=
  cluster_join_rejects_malformed (fun _ => "Success: joined".data) ( "badnode".data)
    (by decide)

/-- C4: for every node passing the `"@"` validation, `cluster_join`
returns True exactly when the first normalized output line starts with
`"Success"`, and otherwise returns that first normalized line verbatim;
with the stubbed output `"Attempting to join...\nSuccess: joined"` it
returns True. -/
theorem cluster_join_result_cases (run : Str → Str) (node : Str)
    (h : (splitChar '@' node).length = 2) :
    (∀ m, (normalize (run ( "riak-admin cluster join ".data ++ node))).head? = some m →
      (cluster_join run node).2
        = some (if List.isPrefixOf ( "Success".data) m then Res.boolean true
                else Res.text m))
    ∧ cluster_join (fun _ => "Attempting to join...\nSuccess: joined".data) ( "a@b".data)
      = ([ "riak-admin cluster join ".data ++ "a@b".data], some (Res.boolean true)) := by
  constructor
  · intro m hm
    simp only [cluster_join, h, ne_eq, not_true_eq_false, if_false, successOrFirst, hm]
    split <;> rfl
  · decide

theorem cluster_join_result_cases_w :
    (cluster_join (fun _ => "Failed: nope".data) ( "a@b".data)).2
      = some (if List.isPrefixOf ( "Success".data) ( "Failed: nope".data) then Res.boolean true
              else Res.text ( "Failed: nope".data)) :=
  (cluster_join_result_cases (fun _ => "Failed: nope".data) ( "a@b".data) (by decide)).1
    ( "Failed: nope".data) (by decide)

/-- C5: for every raw output in which no line starts with `"!!!!"` and the
first line does not start with `"Attempting"`, the output normalizer is
the identity: the normalized lines equal the newline split of the raw
output exactly, preserving every line, its content and the order. -/
theorem normalize_noop (raw : Str)
    (h1 : ∀ l ∈ splitChar '\n' raw, List.isPrefixOf ( "!!!!".data) l = false)
    (h2 : List.isPrefixOf ( "Attempting".data) ((splitChar '\n' raw).headD []) = false) :
    normalize raw = splitChar '\n' raw := by
  have hfilt : (splitChar '\n' raw).filter (fun line => !List.isPrefixOf ( "!!!!".data) line)
      = splitChar '\n' raw := by
    apply List.filter_eq_self.mpr
    intro a ha
    simp [h1 a ha]
  cases hsp : splitChar '\n' raw with
  | nil =>
    unfold normalize
    rw [hfilt, hsp]
  | cons m rest =>
    have h3 : List.isPrefixOf ( "Attempting".data) m = false := by
      rw [hsp] at h2
      simpa using h2
    unfold normalize
    rw [hfilt, hsp]
    simp [h3]

theorem normalize_noop_w :
    normalize ( "first line\nsecond".data) = splitChar '\n' ( "first line\nsecond".data) :=
  normalize_noop ( "first line\nsecond".data) (by decide) (by decide)

/-- C6: when every raw output line starts with `"!!!!"`, the normalized
line list is empty and the unguarded first-line access of `version` (and
of `cluster_join`, `cluster_leave`, `cluster_replace`, `cluster_plan`,
`cluster_clear`, `cluster_commit` once their validation passes) is out of
range: the crash, modelled as `none`, is an unhandled boundary condition,
not a returned Result. -/
theorem normalized_empty_crash (raw node1 node2 : Str)
    (hb : ∀ l ∈ splitChar '\n' raw, List.isPrefixOf ( "!!!!".data) l = true)
    (h1 : (splitChar '@' node1).length = 2)
    (h2 : (splitChar '@' node2).length = 2) :
    normalize raw = [] ∧
    version (fun _ => raw) = none ∧
    (cluster_join (fun _ => raw) node1).2 = none ∧
    (cluster_leave (fun _ => raw) (some node1) false).2 = none ∧
    (cluster_replace (fun _ => raw) node1 node2 false).2 = none ∧
    (cluster_plan (fun _ => raw)).2 = none ∧
    (cluster_clear (fun _ => raw)).2 = none ∧
    (cluster_commit (fun _ => raw)).2 = none := by
  have hnorm : normalize raw = [] := by
    have hfilt : (splitChar '\n' raw).filter
        (fun line => !List.isPrefixOf ( "!!!!".data) line) = [] := by
      apply List.filter_eq_nil_iff.mpr
      intro a ha
      simp [hb a ha]
    unfold normalize
    rw [hfilt]
  refine ⟨hnorm, ?_, ?_, ?_, ?_, ?_, ?_, ?_⟩
  · simp [version, hnorm]
  · simp [cluster_join, h1, successOrFirst, hnorm]
  · simp [cluster_leave, cluster_leave_run, h1, successOrFirst, hnorm]
  · simp [cluster_replace, h1, successOrFirst, hnorm]
  · simp [cluster_plan, hnorm]
  · simp [cluster_clear, hnorm]
  · simp [cluster_commit, hnorm]

theorem normalized_empty_crash_w :
    normalize ( "!!!!boom".data) = [] ∧
    version (fun _ => "!!!!boom".data) = none ∧
    (cluster_join (fun _ => "!!!!boom".data) ( "a@b".data)).2 = none ∧
    (cluster_leave (fun _ => "!!!!boom".data) (some ( "a@b".data)) false).2 = none ∧
    (cluster_replace (fun _ => "!!!!boom".data) ( "a@b".data) ( "c@d".data) false).2 = none ∧
    (cluster_plan (fun _ => "!!!!boom".data)).2 = none ∧
    (cluster_clear (fun _ => "!!!!boom".data)).2 = none ∧
    (cluster_commit (fun _ => "!!!!boom".data)).2 = none :=
  normalized_empty_crash ( "!!!!boom".data) ( "a@b".data) ( "c@d".data)
    (by decide) (by decide) (by decide)

/-- C7: when the first normalized line equals exactly
`"There are no staged changes"`, `cluster_plan` returns the absent/None
result; for every other first normalized line it returns the complete
normalized line list, including that first line, in order. -/
theorem cluster_plan_cases (run : Str → Str) :
    ((normalize (run ( "riak-admin cluster plan".data))).head?
        = some ( "There are no staged changes".data) →
      cluster_plan run = ([ "riak-admin cluster plan".data], some Res.nothing))
    ∧ (∀ m, (normalize (run ( "riak-admin cluster plan".data))).head? = some m →
        m ≠ "There are no staged changes".data →
        cluster_plan run = ([ "riak-admin cluster plan".data],
          some (Res.items (normalize (run ( "riak-admin cluster plan".data)))))) := by
  constructor
  · intro h
    simp [cluster_plan, h]
  · intro m hm hne
    simp [cluster_plan, hm, hne]

theorem cluster_plan_cases_w :
    cluster_plan (fun _ => "There are no staged changes".data)
      = ([ "riak-admin cluster plan".data], some Res.nothing)
    ∧ cluster_plan (fun _ => "ring changes\nstaged".data)
      = ([ "riak-admin cluster plan".data],
         some (Res.items [ "ring changes".data, "staged".data])) :=
  ⟨(cluster_plan_cases (fun _ => "There are no staged changes".data)).1 (by decide),
   ((cluster_plan_cases (fun _ => "ring changes\nstaged".data)).2
      ( "ring changes".data) (by decide) (by decide)).trans (by decide)⟩

/-- C8: when the first normalized line of the commit output starts with
`"You must verify the plan"`, `cluster_commit` issues a second external
command by re-invoking `cluster_plan` and returns `cluster_plan`'s result;
for every other first normalized line it returns that line verbatim. -/
theorem cluster_commit_cases (run : Str → Str) :
    ∀ m, (normalize (run ( "riak-admin cluster commit".data))).head? = some m →
      (List.isPrefixOf ( "You must verify the plan".data) m = true →
        cluster_commit run
          = ([ "riak-admin cluster commit".data, "riak-admin cluster plan".data],
             (cluster_plan run).2))
      ∧ (List.isPrefixOf ( "You must verify the plan".data) m = false →
        cluster_commit run = ([ "riak-admin cluster commit".data], some (Res.text m))) := by
  intro m hm
  constructor
  · intro hp
    simp [cluster_commit, hm, hp, cluster_plan]
  · intro hp
    simp [cluster_commit, hm, hp]

theorem cluster_commit_cases_w :
    cluster_commit commitStub
      = ([ "riak-admin cluster commit".data, "riak-admin cluster plan".data],
         some Res.nothing) :=
  (((cluster_commit_cases commitStub) ( "You must verify the plan first".data)
      (by decide)).1 (by decide)).trans (by decide)

/-- C9 counterexample: the line `"a : b : c"` contains the literal
separator `" : "` (its split has 3 parts, so the separator occurs), yet
`status` emits NO element for it — the claim "a single-key mapping for
each raw line that contains the separator" fails on this input. -/
theorem status_contains_sep_cex :
    status (fun _ => "a : b : c".data) = []
    ∧ (splitColonSep ( "a : b : c".data)).length = 3 := by
  constructor
  · rfl
  · rfl

/-- C9 (amended): `status` emits one element per raw line whose `" : "`
split has exactly 2 parts (the separator occurs exactly once), mapping the
part before the separator to the part after it, in line order; a line
whose split does not have exactly 2 parts — no separator, or several —
produces no element.  The line `"vnode_gets : 0"` yields the one element
`("vnode_gets", "0")`. -/
theorem status_filterMap (run : Str → Str) :
    status run = (splitChar '\n' (run ( "riak-admin status".data))).filterMap statusItem
    ∧ status (fun _ => "vnode_gets : 0".data) = [( "vnode_gets".data, "0".data)] := by
  constructor
  · unfold status
    rw [status_foldl_filterMap]
    rfl
  · rfl

/-- C2: `member_status` skips every output line starting with `"="`, `"-"`
or `"Status"`; a non-skipped line without `"/"` that whitespace-splits
into exactly 4 tokens is a per-node row mapping token 3 to tokens 0-2
(Status, Ring, Pending); on the §8 example output the membership maps
`'riak@127.0.0.1'` to Status "valid", Ring "25.0%", Pending "--" and the
summary holds Valid "1", Leaving "0", Exiting "0", Joining "0",
Down "0". -/
theorem member_status_parse_spec :
    (∀ ret line,
      (List.isPrefixOf ( "=".data) line || List.isPrefixOf ( "-".data) line
        || List.isPrefixOf ( "Status".data) line) = true →
      memberLine ret line = some ret)
    ∧ (∀ ret line v0 v1 v2 v3,
      (List.isPrefixOf ( "=".data) line || List.isPrefixOf ( "-".data) line
        || List.isPrefixOf ( "Status".data) line) = false →
      line.contains '/' = false →
      pySplitWs line = [v0, v1, v2, v3] →
      memberLine ret line
        = some { ret with membership := dictSet ret.membership v3 (v0, v1, v2) })
    ∧ member_status (fun _ => exampleMemberOut)
      = some { membership := [( "'riak@127.0.0.1'".data,
                                ( "valid".data, "25.0%".data, "--".data))]
               summary := [( "Valid".data, SummVal.text ( "1".data)),
                           ( "Leaving".data, SummVal.text ( "0".data)),
                           ( "Exiting".data, SummVal.text ( "0".data)),
                           ( "Joining".data, SummVal.text ( "0".data)),
                           ( "Down".data, SummVal.text ( "0".data))] } := by
  refine ⟨?_, ?_, ?_⟩
  · intro ret line h
    simp [memberLine, h]
  · intro ret line v0 v1 v2 v3 hskip hsl hws
    have hmem : ¬('/' ∈ line) := by simpa using hsl
    simp [memberLine, hskip, hsl, hmem, hws]
  · decide

theorem member_status_parse_spec_w :
    memberLine memberInit ( "====".data) = some memberInit
    ∧ memberLine memberInit ( "valid      25.0%     --      n@h".data)
      = some { memberInit with
               membership := dictSet memberInit.membership ( "n@h".data)
                 ( "valid".data, "25.0%".data, "--".data) } :=
  ⟨member_status_parse_spec.1 memberInit ( "====".data) (by decide),
   member_status_parse_spec.2.1 memberInit ( "valid      25.0%     --      n@h".data)
     ( "valid".data) ( "25.0%".data) ( "--".data) ( "n@h".data)
     (by decide) (by decide) (by decide)⟩

/-- C10: `member_status` is total only when every non-skipped line
containing `"/"` has all its `"/"`-segments splitting on `":"` into
exactly 2 parts: a raw output with a slash line of which some segment has
zero or more than one `":"` makes the key/value unpacking raise, and
`member_status` returns no mapping at all (modelled as `none`). -/
theorem member_status_not_total (run : Str → Str)
    (h : ∃ line ∈ pySplitlines (run ( "riak-admin member-status".data)),
      badSummaryLine line) :
    member_status run = none := by
  unfold member_status
  exact foldlM_memberLine_none _ _ h

theorem member_status_not_total_w :
    member_status (fun _ => "Valid:1 / Down".data) = none :=
  member_status_not_total (fun _ => "Valid:1 / Down".data) (by decide)

end Riak
